import Mathlib

/-!
Shallow embedding of the two-tier Flask web application (src/src/app.py).

The database is modelled as an explicit state (`DB`) holding the `users`
and `logs` tables together with the auto-increment counters and a clock
used for the `created_at` / `updated_at` timestamps.  The relational
engine is treated as a black box, as the specification declares it out of
scope: a statement either succeeds, or raises, and an INSERT/UPDATE that
would duplicate a `email` value raises an integrity error whose message
contains "Duplicate entry".

Store failures are injected through a `Fault` parameter describing which
step of the handler raises (`connectFail` models `get_db_connection`
raising, `execFail` a generic `cursor.execute` failure, `commitFail` a
`conn.commit` failure).  Each handler receives one `Fault` for its own
store interaction and one for the nested `log_event` call.

Every handler returns an `HRes` recording the HTTP status, the JSON body,
the resulting database state, and instrumentation needed by the claims:
how many connections the invocation acquired and released, and how many
times `log_event` was called.  Python `try`/`except` is embedded by the
branch structure: a branch taken when a given step raises mirrors the
matching `except` block of the source, and the accounting fields record
exactly the `get_db_connection()` / `conn.close()` calls executed on that
path of the source.
-/

/-- Which step of a store interaction raises, if any. -/
inductive Fault where
  | ok
  | connectFail
  | execFail
  | commitFail
deriving Repr, DecidableEq

/-- A row of the `users` table.  `name` and `email` are `Option String`
because the update handler passes `data.get(...)`, which may be `None`;
the engine-side NOT NULL enforcement is an out-of-scope black-box concern
per the specification. -/
structure User where
  id : Nat
  name : Option String
  email : Option String
  created_at : Nat
  updated_at : Nat
deriving Repr, DecidableEq

/-- A row of the `logs` table. -/
structure LogEntry where
  id : Nat
  level : String
  message : String
  instance_id : String
  created_at : Nat
deriving Repr, DecidableEq

/-- The persistent store plus a clock supplying timestamps. -/
structure DB where
  users : List User
  logs : List LogEntry
  nextUserId : Nat
  nextLogId : Nat
  now : Nat
deriving Repr, DecidableEq

/-- The parsed JSON request body, as seen by `request.get_json()` followed
by `data.get("name")` / `data.get("email")`.  `falsy` models the Python
truthiness test `not data` (true for a `null` body or an empty object). -/
structure ParsedJson where
  falsy : Bool
  name : Option String
  email : Option String
deriving Repr, DecidableEq

/-- Python truthiness of an optional string: `None` and `""` are falsy. -/
def pyFalsy : Option String → Bool
  | none => true
  | some s => s == ""

/-- The JSON body of a response, one constructor per response shape of
the source. -/
inductive Body where
  | error (msg : String)
  | homePage
  | healthOk
  | healthUnhealthy (msg : String)
  | userList (users : List User) (count : Nat)
  | created (user_id : Nat)
  | userOne (u : User)
  | updated
  | deleted
  | logList (logs : List LogEntry) (count : Nat)
  | infoPage
deriving Repr, DecidableEq

/-- Result of one handler invocation: HTTP status, body, resulting store
state, and instrumentation (connections acquired / released during the
invocation, number of `log_event` calls made). -/
structure HRes where
  status : Nat
  body : Body
  db : DB
  acquired : Nat
  released : Nat
  events : Nat
deriving Repr, DecidableEq

/-- Result of one `log_event` call: resulting store state, connections
acquired / released inside the call, messages written to the local
diagnostic logger, and whether an exception escaped to the caller. -/
structure LogResult where
  db : DB
  acquired : Nat
  released : Nat
  localDiag : Nat
  raised : Bool
deriving Repr, DecidableEq

/-- `INSTANCE_ID` environment value (default of the source). -/
def INSTANCE_ID : String := "unknown"

/-- Stand-in for `str(e)` of a connection error. -/
def connectErrMsg : String := "connection error"

/-- Stand-in for `str(e)` of a generic statement failure. -/
def execErrMsg : String := "execute error"

/-- Stand-in for `str(e)` of a commit failure. -/
def commitErrMsg : String := "commit error"

/-- `log_event(level, message)` of the source: best-effort insert of one
row into `logs`; every exception is caught, written to the local logger
and swallowed.  On `execFail` / `commitFail` the connection acquired at
the start of the `try` block is never closed (the source has no
`finally`). -/
def log_event (flog : Fault) (db : DB) (level message : String) : LogResult :=
  if flog = Fault.connectFail then
    { db := db, acquired := 0, released := 0, localDiag := 1, raised := false }
  else if flog = Fault.execFail then
    { db := db, acquired := 1, released := 0, localDiag := 1, raised := false }
  else if flog = Fault.commitFail then
    { db := db, acquired := 1, released := 0, localDiag := 1, raised := false }
  else
    { db := { db with
        logs := { id := db.nextLogId, level := level, message := message,
                  instance_id := INSTANCE_ID, created_at := db.now } :: db.logs,
        nextLogId := db.nextLogId + 1 },
      acquired := 1, released := 1, localDiag := 0, raised := false }

/-- Descending order on `created_at`, the `ORDER BY created_at DESC` of
the users queries. -/
def userDesc (a b : User) : Prop := b.created_at ≤ a.created_at

instance : DecidableRel userDesc := fun a b =>
  inferInstanceAs (Decidable (b.created_at ≤ a.created_at))

instance : IsTotal User userDesc :=
  ⟨fun a b => Nat.le_total b.created_at a.created_at⟩

instance : IsTrans User userDesc :=
  ⟨fun _ _ _ hab hbc => Nat.le_trans hbc hab⟩

/-- Descending order on `created_at`, the `ORDER BY created_at DESC` of
the logs queries. -/
def logDesc (a b : LogEntry) : Prop := b.created_at ≤ a.created_at

instance : DecidableRel logDesc := fun a b =>
  inferInstanceAs (Decidable (b.created_at ≤ a.created_at))

instance : IsTotal LogEntry logDesc :=
  ⟨fun a b => Nat.le_total b.created_at a.created_at⟩

instance : IsTrans LogEntry logDesc :=
  ⟨fun _ _ _ hab hbc => Nat.le_trans hbc hab⟩

/-- `SELECT * FROM users WHERE id = %s` followed by `fetchone`. -/
def find_user (db : DB) (uid : Nat) : Option User :=
  db.users.find? (fun u => u.id == uid)

/-- Whether an INSERT of `email` violates the UNIQUE constraint of the
`users` table (SQL UNIQUE ignores NULL values). -/
def emailExists (db : DB) (email : Option String) : Bool :=
  match email with
  | none => false
  | some e => db.users.any (fun u => u.email == some e)

/-- Whether `UPDATE users SET name = .., email = .. WHERE id = uid`
violates the UNIQUE constraint on `email`: some row is actually matched
and the new email duplicates the email of a different row. -/
def updateConflict (db : DB) (uid : Nat) (email : Option String) : Bool :=
  db.users.any (fun u => u.id == uid) &&
    match email with
    | none => false
    | some e => db.users.any (fun u => u.id != uid && u.email == some e)

/-- `GET /` — the home handler: records one event, returns static
metadata.  It touches the store only through `log_event`. -/
def home (flog : Fault) (db : DB) : HRes :=
  let lr := log_event flog db ("INFO") ("Home endpoint accessed")
  { status := 200, body := Body.homePage, db := lr.db,
    acquired := lr.acquired, released := lr.released, events := 1 }

/-- `GET /health` — attempts a connection, closes it, and reports. -/
def health (f flog : Fault) (db : DB) : HRes :=
  if f = Fault.connectFail then
    let lr := log_event flog db ("ERROR")
      ("Health check failed: " ++ connectErrMsg)
    { status := 500, body := Body.healthUnhealthy connectErrMsg, db := lr.db,
      acquired := lr.acquired, released := lr.released, events := 1 }
  else
    let lr := log_event flog db ("INFO") ("Health check passed")
    { status := 200, body := Body.healthOk, db := lr.db,
      acquired := 1 + lr.acquired, released := 1 + lr.released, events := 1 }

/-- `GET /users` — list all users ordered by `created_at` descending.
On a statement failure the connection is not closed (no `finally` in the
source); the `except` block records an ERROR event and returns 500. -/
def get_users (f flog : Fault) (db : DB) : HRes :=
  if f = Fault.connectFail then
    let lr := log_event flog db ("ERROR")
      ("Error retrieving users: " ++ connectErrMsg)
    { status := 500, body := Body.error connectErrMsg, db := lr.db,
      acquired := lr.acquired, released := lr.released, events := 1 }
  else if f = Fault.execFail then
    let lr := log_event flog db ("ERROR")
      ("Error retrieving users: " ++ execErrMsg)
    { status := 500, body := Body.error execErrMsg, db := lr.db,
      acquired := 1 + lr.acquired, released := lr.released, events := 1 }
  else
    let rows := List.insertionSort userDesc db.users
    let lr := log_event flog db ("INFO")
      ("Retrieved " ++ toString rows.length ++ " users")
    { status := 200, body := Body.userList rows rows.length, db := lr.db,
      acquired := 1 + lr.acquired, released := 1 + lr.released, events := 1 }

/-- `POST /users` — validate, insert, commit.  A duplicate email raises
an integrity error containing "Duplicate entry", mapped to 409 with the
connection left open and no event recorded (the `except IntegrityError`
block returns directly).  Generic failures reach the `except Exception`
block: ERROR event, 500, connection left open. -/
def create_user (f flog : Fault) (db : DB) (data : ParsedJson) : HRes :=
  if data.falsy then
    { status := 400, body := Body.error ("No data provided"), db := db,
      acquired := 0, released := 0, events := 0 }
  else if pyFalsy data.name || pyFalsy data.email then
    { status := 400, body := Body.error ("Name and email are required"),
      db := db, acquired := 0, released := 0, events := 0 }
  else if f = Fault.connectFail then
    let lr := log_event flog db ("ERROR")
      ("Error creating user: " ++ connectErrMsg)
    { status := 500, body := Body.error connectErrMsg, db := lr.db,
      acquired := lr.acquired, released := lr.released, events := 1 }
  else if emailExists db data.email then
    { status := 409, body := Body.error ("Email already exists"), db := db,
      acquired := 1, released := 0, events := 0 }
  else if f = Fault.execFail then
    let lr := log_event flog db ("ERROR")
      ("Error creating user: " ++ execErrMsg)
    { status := 500, body := Body.error execErrMsg, db := lr.db,
      acquired := 1 + lr.acquired, released := lr.released, events := 1 }
  else if f = Fault.commitFail then
    let lr := log_event flog db ("ERROR")
      ("Error creating user: " ++ commitErrMsg)
    { status := 500, body := Body.error commitErrMsg, db := lr.db,
      acquired := 1 + lr.acquired, released := lr.released, events := 1 }
  else
    let newUser : User :=
      { id := db.nextUserId, name := data.name, email := data.email,
        created_at := db.now, updated_at := db.now }
    let db1 : DB := { db with users := newUser :: db.users,
                              nextUserId := db.nextUserId + 1 }
    let lr := log_event flog db1 ("INFO")
      ("Created user: " ++ (data.name.getD "") ++
        " (" ++ (data.email.getD "") ++ ")")
    { status := 201, body := Body.created newUser.id, db := lr.db,
      acquired := 1 + lr.acquired, released := 1 + lr.released, events := 1 }

/-- `GET /users/{id}` — fetch one row.  The source closes the connection
before the not-found test, so the 404 path releases the connection and
records no event. -/
def get_user (f flog : Fault) (db : DB) (uid : Nat) : HRes :=
  if f = Fault.connectFail then
    let lr := log_event flog db ("ERROR")
      ("Error retrieving user " ++ toString uid ++ ": " ++ connectErrMsg)
    { status := 500, body := Body.error connectErrMsg, db := lr.db,
      acquired := lr.acquired, released := lr.released, events := 1 }
  else if f = Fault.execFail then
    let lr := log_event flog db ("ERROR")
      ("Error retrieving user " ++ toString uid ++ ": " ++ execErrMsg)
    { status := 500, body := Body.error execErrMsg, db := lr.db,
      acquired := 1 + lr.acquired, released := lr.released, events := 1 }
  else
    match find_user db uid with
    | none =>
        { status := 404, body := Body.error ("User not found"), db := db,
          acquired := 1, released := 1, events := 0 }
    | some u =>
        let lr := log_event flog db ("INFO")
          ("Retrieved user: " ++ toString uid)
        { status := 200, body := Body.userOne u, db := lr.db,
          acquired := 1 + lr.acquired, released := 1 + lr.released,
          events := 1 }

/-- `PUT /users/{id}` — write `name` and `email` unconditionally from the
parsed body (absent keys become null) and refresh `updated_at`.  A zero
rowcount closes the connection and returns 404; a duplicate email raises
an integrity error mapped to 409 with the connection left open. -/
def update_user (f flog : Fault) (db : DB) (uid : Nat) (data : ParsedJson) :
    HRes :=
  if data.falsy then
    { status := 400, body := Body.error ("No data provided"), db := db,
      acquired := 0, released := 0, events := 0 }
  else if f = Fault.connectFail then
    let lr := log_event flog db ("ERROR")
      ("Error updating user " ++ toString uid ++ ": " ++ connectErrMsg)
    { status := 500, body := Body.error connectErrMsg, db := lr.db,
      acquired := lr.acquired, released := lr.released, events := 1 }
  else if f = Fault.execFail then
    let lr := log_event flog db ("ERROR")
      ("Error updating user " ++ toString uid ++ ": " ++ execErrMsg)
    { status := 500, body := Body.error execErrMsg, db := lr.db,
      acquired := 1 + lr.acquired, released := lr.released, events := 1 }
  else if updateConflict db uid data.email then
    { status := 409, body := Body.error ("Email already exists"), db := db,
      acquired := 1, released := 0, events := 0 }
  else if db.users.any (fun u => u.id == uid) = false then
    { status := 404, body := Body.error ("User not found"), db := db,
      acquired := 1, released := 1, events := 0 }
  else if f = Fault.commitFail then
    let lr := log_event flog db ("ERROR")
      ("Error updating user " ++ toString uid ++ ": " ++ commitErrMsg)
    { status := 500, body := Body.error commitErrMsg, db := lr.db,
      acquired := 1 + lr.acquired, released := lr.released, events := 1 }
  else
    let db1 : DB := { db with
      users := db.users.map (fun u =>
        if u.id == uid then
          { u with name := data.name, email := data.email,
                   updated_at := db.now }
        else u) }
    let lr := log_event flog db1 ("INFO")
      ("Updated user: " ++ toString uid)
    { status := 200, body := Body.updated, db := lr.db,
      acquired := 1 + lr.acquired, released := 1 + lr.released, events := 1 }

/-- `DELETE /users/{id}` — delete the matching rows.  A zero rowcount
closes the connection and returns 404. -/
def delete_user (f flog : Fault) (db : DB) (uid : Nat) : HRes :=
  if f = Fault.connectFail then
    let lr := log_event flog db ("ERROR")
      ("Error deleting user " ++ toString uid ++ ": " ++ connectErrMsg)
    { status := 500, body := Body.error connectErrMsg, db := lr.db,
      acquired := lr.acquired, released := lr.released, events := 1 }
  else if f = Fault.execFail then
    let lr := log_event flog db ("ERROR")
      ("Error deleting user " ++ toString uid ++ ": " ++ execErrMsg)
    { status := 500, body := Body.error execErrMsg, db := lr.db,
      acquired := 1 + lr.acquired, released := lr.released, events := 1 }
  else if db.users.any (fun u => u.id == uid) = false then
    { status := 404, body := Body.error ("User not found"), db := db,
      acquired := 1, released := 1, events := 0 }
  else if f = Fault.commitFail then
    let lr := log_event flog db ("ERROR")
      ("Error deleting user " ++ toString uid ++ ": " ++ commitErrMsg)
    { status := 500, body := Body.error commitErrMsg, db := lr.db,
      acquired := 1 + lr.acquired, released := lr.released, events := 1 }
  else
    let db1 : DB := { db with
      users := db.users.filter (fun u => !(u.id == uid)) }
    let lr := log_event flog db1 ("INFO")
      ("Deleted user: " ++ toString uid)
    { status := 200, body := Body.deleted, db := lr.db,
      acquired := 1 + lr.acquired, released := 1 + lr.released, events := 1 }

/-- `GET /logs` — list log entries, newest first, capped at `limit`
(default 100), optionally filtered by exact `level` match.  The source
tests the filter with Python truthiness (`if level:`), so an empty-string
level behaves as no filter.  This handler never calls `log_event`. -/
def get_logs (f : Fault) (db : DB) (limit : Option Nat)
    (level : Option String) : HRes :=
  let lim := limit.getD 100
  if f = Fault.connectFail then
    { status := 500, body := Body.error connectErrMsg, db := db,
      acquired := 0, released := 0, events := 0 }
  else if f = Fault.execFail then
    { status := 500, body := Body.error execErrMsg, db := db,
      acquired := 1, released := 0, events := 0 }
  else
    let rows :=
      match level with
      | some lv =>
          if lv == "" then
            (List.insertionSort logDesc db.logs).take lim
          else
            (List.insertionSort logDesc
              (db.logs.filter (fun e => e.level == lv))).take lim
      | none => (List.insertionSort logDesc db.logs).take lim
    { status := 200, body := Body.logList rows rows.length, db := db,
      acquired := 1, released := 1, events := 0 }

/-- `GET /info` — static metadata, no store access of any kind. -/
def info (db : DB) : HRes :=
  { status := 200, body := Body.infoPage, db := db,
    acquired := 0, released := 0, events := 0 }

/-- The `logs` array of a response body (empty for other bodies). -/
def HRes.logRows (r : HRes) : List LogEntry :=
  match r.body with
  | Body.logList l _ => l
  | _ => []

/-! ## Concrete sample data used by witnesses and counterexamples -/

/-- A sample user row. -/
def sampleUser : User :=
  { id := 1, name := some "John Doe", email := some "john@example.com",
    created_at := 1, updated_at := 1 }

/-- A sample store holding one user and no logs. -/
def sampleDB : DB :=
  { users := [sampleUser], logs := [], nextUserId := 2, nextLogId := 1,
    now := 5 }

/-- A parsed body whose email duplicates `sampleUser`. -/
def dupBody : ParsedJson :=
  { falsy := false, name := some "Jane", email := some "john@example.com" }

/-- The parsed body of `POST /users` with `name` only (spec scenario). -/
def nameOnlyBody : ParsedJson :=
  { falsy := false, name := some "X", email := none }

/-- The parsed body of a request whose JSON is `null` or an empty
object: Python `not data` is true and no key is present. -/
def emptyJson : ParsedJson := { falsy := true, name := none, email := none }

/-- A parsed body carrying a fresh name and email. -/
def updBody : ParsedJson :=
  { falsy := false, name := some "John Updated",
    email := some "john.updated@example.com" }

/-- An empty store. -/
def emptyDB : DB :=
  { users := [], logs := [], nextUserId := 1, nextLogId := 1, now := 0 }

/-- A sample INFO log row. -/
def entryA : LogEntry :=
  { id := 1, level := "INFO", message := "first", instance_id := "unknown",
    created_at := 3 }

/-- A sample ERROR log row, newer than `entryA`. -/
def entryB : LogEntry :=
  { id := 2, level := "ERROR", message := "second", instance_id := "unknown",
    created_at := 7 }

/-- A store holding two log rows and no users. -/
def logsDB : DB :=
  { users := [], logs := [entryA, entryB], nextUserId := 1, nextLogId := 3,
    now := 9 }

/-! ## Helper lemmas -/

/-- `log_event` never touches the `users` table. -/
theorem log_event_users (flog : Fault) (db : DB) (l m : String) :
    (log_event flog db l m).db.users = db.users := by
  unfold log_event
  rcases flog <;> simp

/-- When no row matches an id, the `fetchone` of `get_user` is `none`. -/
theorem find_user_eq_none (db : DB) (uid : Nat)
    (h : db.users.any (fun u => u.id == uid) = false) :
    find_user db uid = none := by
  unfold find_user
  rw [List.find?_eq_none]
  intro x hx
  rw [List.any_eq_false] at h
  simpa using h x hx

/-- Deleting an id leaves no row with that id. -/
theorem any_filter_ne_eq_false (l : List User) (uid : Nat) :
    (l.filter (fun u => !(u.id == uid))).any (fun u => u.id == uid) = false := by
  rw [List.any_eq_false]
  intro x hx
  have hpx := (List.mem_filter.mp hx).2
  simp at hpx
  simp [hpx]

/-! ## Claim C1 -/

/-- C1: for every `POST /users` request whose email already exists in the
users table (store reachable), the handler returns 409 with body
`error "Email already exists"`, the users table and the whole store state
are unchanged (the failed insert is never committed), and a subsequent
`GET /users` produces the same body, hence the same count. -/
theorem C1_duplicate_email_conflict (flog flog2 : Fault) (db : DB)
    (data : ParsedJson) (h1 : data.falsy = false)
    (h2 : pyFalsy data.name = false) (h3 : pyFalsy data.email = false)
    (h4 : emailExists db data.email = true) :
    (create_user Fault.ok flog db data).status = 409 ∧
    (create_user Fault.ok flog db data).body =
      Body.error ("Email already exists") ∧
    (create_user Fault.ok flog db data).db = db ∧
    (get_users Fault.ok flog2 (create_user Fault.ok flog db data).db).body =
      (get_users Fault.ok flog2 db).body := by
  unfold create_user
  simp [h1, h2, h3, h4]

/-- Witness for C1 at a concrete store and request. -/
theorem C1_duplicate_email_conflict_witness :
    (create_user Fault.ok Fault.ok sampleDB dupBody).status = 409 ∧
    (create_user Fault.ok Fault.ok sampleDB dupBody).body =
      Body.error ("Email already exists") ∧
    (create_user Fault.ok Fault.ok sampleDB dupBody).db = sampleDB ∧
    (get_users Fault.ok Fault.ok
        (create_user Fault.ok Fault.ok sampleDB dupBody).db).body =
      (get_users Fault.ok Fault.ok sampleDB).body :=
  C1_duplicate_email_conflict Fault.ok Fault.ok sampleDB dupBody
    (by decide) (by decide) (by decide) (by decide)

/-! ## Claim C2 -/

/-- C2 counterexample: the parsed body of `POST /users` with an empty
JSON object is missing both `name` and `email`, yet the handler returns
400 with body `error "No data provided"`, not
`error "Name and email are required"` as the claim states. -/
theorem C2_empty_object_counterexample :
    (create_user Fault.ok Fault.ok sampleDB emptyJson).status = 400 ∧
    (create_user Fault.ok Fault.ok sampleDB emptyJson).body =
      Body.error ("No data provided") ∧
    (create_user Fault.ok Fault.ok sampleDB emptyJson).body ≠
      Body.error ("Name and email are required") := by
  decide

/-- C2 (amended): for every `POST /users` request whose parsed body is
truthy (a non-empty JSON object) and is missing `name`, missing `email`,
or has either as an empty string, the handler returns 400 with body
`error "Name and email are required"` and performs no store access at
all: no connection, no insert, no event, state unchanged; this holds for
every behaviour of the store. -/
theorem C2_missing_fields_validation (f flog : Fault) (db : DB)
    (data : ParsedJson) (h1 : data.falsy = false)
    (h2 : (pyFalsy data.name || pyFalsy data.email) = true) :
    create_user f flog db data =
      { status := 400, body := Body.error ("Name and email are required"),
        db := db, acquired := 0, released := 0, events := 0 } := by
  unfold create_user
  simp [h1, h2]

/-- Witness for C2 (amended) at the spec scenario body with `name` only,
with an injected connection failure showing the store is never touched. -/
theorem C2_missing_fields_validation_witness :
    create_user Fault.connectFail Fault.ok sampleDB nameOnlyBody =
      { status := 400, body := Body.error ("Name and email are required"),
        db := sampleDB, acquired := 0, released := 0, events := 0 } :=
  C2_missing_fields_validation Fault.connectFail Fault.ok sampleDB
    nameOnlyBody (by decide) (by decide)

/-! ## Claim C3 -/

/-- C3: the code leaks connections.  On the duplicate-email path of
`POST /users` the handler acquires one connection and returns 409 having
released none (the `except IntegrityError` block returns without
`conn.close()`); the generic-failure path of `GET /users` likewise
returns with the acquired connection still open. -/
theorem C3_conflict_path_leaks_connection :
    (create_user Fault.ok Fault.ok sampleDB dupBody).acquired = 1 ∧
    (create_user Fault.ok Fault.ok sampleDB dupBody).released = 0 ∧
    (get_users Fault.execFail Fault.connectFail sampleDB).acquired = 1 ∧
    (get_users Fault.execFail Fault.connectFail sampleDB).released = 0 := by
  decide

/-! ## Claim C4 -/

/-- C4: for every input and every behaviour of the store (connection,
insert, or commit failure), `log_event` never raises to its caller; on
failure the store is unchanged and exactly one message goes to the local
diagnostic logger, and on success exactly one row is appended to
`logs`. -/
theorem C4_log_event_never_raises (flog : Fault) (db : DB)
    (level message : String) :
    (log_event flog db level message).raised = false ∧
    (flog ≠ Fault.ok →
      (log_event flog db level message).db = db ∧
      (log_event flog db level message).localDiag = 1) ∧
    (flog = Fault.ok →
      (log_event flog db level message).db.logs =
        { id := db.nextLogId, level := level, message := message,
          instance_id := INSTANCE_ID, created_at := db.now } :: db.logs ∧
      (log_event flog db level message).localDiag = 0) := by
  unfold log_event
  rcases flog <;> simp

/-- Witness for C4 at a commit failure on a concrete store. -/
theorem C4_log_event_never_raises_witness :
    (log_event Fault.commitFail sampleDB ("INFO") ("msg")).raised = false ∧
    (log_event Fault.commitFail sampleDB ("INFO") ("msg")).db = sampleDB ∧
    (log_event Fault.commitFail sampleDB ("INFO") ("msg")).localDiag = 1 := by
  have h := C4_log_event_never_raises Fault.commitFail sampleDB ("INFO") ("msg")
  exact ⟨h.1, (h.2.1 (by decide)).1, (h.2.1 (by decide)).2⟩

/-! ## Claim C10 -/

/-- C10: for every `PUT /users/{id}` request whose parsed body is falsy
(absent or an empty JSON object), the handler returns 400 with body
`error "No data provided"` and performs no store access: no connection,
no event, state unchanged — for every store behaviour and every id,
including ids that exist. -/
theorem C10_update_empty_body (f flog : Fault) (db : DB) (uid : Nat)
    (data : ParsedJson) (h : data.falsy = true) :
    update_user f flog db uid data =
      { status := 400, body := Body.error ("No data provided"), db := db,
        acquired := 0, released := 0, events := 0 } := by
  unfold update_user
  simp [h]

/-- Witness for C10 at an existing id (`sampleUser.id = 1`) with a faulty
store, showing the store is never touched. -/
theorem C10_update_empty_body_witness :
    update_user Fault.connectFail Fault.ok sampleDB 1 emptyJson =
      { status := 400, body := Body.error ("No data provided"),
        db := sampleDB, acquired := 0, released := 0, events := 0 } :=
  C10_update_empty_body Fault.connectFail Fault.ok sampleDB 1 emptyJson
    (by decide)

/-! ## Claim C6 -/

/-- C6: for every id matching no row (store reachable), `GET`, `PUT`
(non-empty body) and `DELETE` on `/users/{id}` all return 404 with body
`error "User not found"`; and deleting an existing id then getting it
returns 404 with the same body. -/
theorem C6_not_found_404 (flog flog2 : Fault) (db : DB) (uid : Nat)
    (data : ParsedJson) (hdata : data.falsy = false)
    (habs : db.users.any (fun u => u.id == uid) = false) :
    (get_user Fault.ok flog db uid).status = 404 ∧
    (get_user Fault.ok flog db uid).body = Body.error ("User not found") ∧
    (update_user Fault.ok flog db uid data).status = 404 ∧
    (update_user Fault.ok flog db uid data).body =
      Body.error ("User not found") ∧
    (delete_user Fault.ok flog db uid).status = 404 ∧
    (delete_user Fault.ok flog db uid).body =
      Body.error ("User not found") ∧
    (∀ db2 : DB, db2.users.any (fun u => u.id == uid) = true →
      (delete_user Fault.ok flog db2 uid).status = 200 ∧
      (get_user Fault.ok flog2
        (delete_user Fault.ok flog db2 uid).db uid).status = 404 ∧
      (get_user Fault.ok flog2
        (delete_user Fault.ok flog db2 uid).db uid).body =
          Body.error ("User not found")) := by
  have hfind := find_user_eq_none db uid habs
  have hconf : updateConflict db uid data.email = false := by
    unfold updateConflict
    rw [habs]
    simp
  refine ⟨?_, ?_, ?_, ?_, ?_, ?_, ?_⟩
  · unfold get_user
    simp [hfind]
  · unfold get_user
    simp [hfind]
  · unfold update_user
    simp [hdata, hconf, habs]
  · unfold update_user
    simp [hdata, hconf, habs]
  · unfold delete_user
    simp [habs]
  · unfold delete_user
    simp [habs]
  · intro db2 h2
    have husers : (delete_user Fault.ok flog db2 uid).db.users =
        db2.users.filter (fun u => !(u.id == uid)) := by
      unfold delete_user
      simp [h2, log_event_users]
    have hnone : find_user (delete_user Fault.ok flog db2 uid).db uid =
        none := by
      apply find_user_eq_none
      rw [husers]
      exact any_filter_ne_eq_false db2.users uid
    refine ⟨?_, ?_, ?_⟩
    · unfold delete_user
      simp [h2]
    · unfold get_user
      simp [hnone]
    · unfold get_user
      simp [hnone]

/-- Witness for C6: id 1 is absent from the empty store (404 on all three
verbs) and present in `sampleDB` (delete succeeds, then get is 404). -/
theorem C6_not_found_404_witness :
    (get_user Fault.ok Fault.ok emptyDB 1).status = 404 ∧
    (update_user Fault.ok Fault.ok emptyDB 1 updBody).status = 404 ∧
    (delete_user Fault.ok Fault.ok emptyDB 1).status = 404 ∧
    (delete_user Fault.ok Fault.ok sampleDB 1).status = 200 ∧
    (get_user Fault.ok Fault.ok
      (delete_user Fault.ok Fault.ok sampleDB 1).db 1).status = 404 := by
  have h := C6_not_found_404 Fault.ok Fault.ok emptyDB 1 updBody
    (by decide) (by decide)
  have h2 := h.2.2.2.2.2.2 sampleDB (by decide)
  exact ⟨h.1, h.2.2.1, h.2.2.2.2.1, h2.1, h2.2.1⟩

/-! ## Claim C7 -/

/-- C7: for every `PUT /users/{id}` with a truthy parsed body, a matched
row, no email conflict and a healthy store, the handler returns 200 and
writes the matched row's `name` and `email` unconditionally with exactly
what the body supplied (absent keys become null) while refreshing
`updated_at`; rows with other ids are untouched. -/
theorem C7_update_overwrites_fields (flog : Fault) (db : DB) (uid : Nat)
    (data : ParsedJson) (hdata : data.falsy = false)
    (hexists : db.users.any (fun u => u.id == uid) = true)
    (hconf : updateConflict db uid data.email = false) :
    (update_user Fault.ok flog db uid data).status = 200 ∧
    ∀ u ∈ db.users,
      (u.id = uid →
        ({ id := u.id, name := data.name, email := data.email,
           created_at := u.created_at, updated_at := db.now } : User) ∈
          (update_user Fault.ok flog db uid data).db.users) ∧
      (u.id ≠ uid → u ∈ (update_user Fault.ok flog db uid data).db.users) := by
  have husers : (update_user Fault.ok flog db uid data).db.users =
      db.users.map (fun u =>
        if u.id == uid then
          { u with name := data.name, email := data.email,
                   updated_at := db.now }
        else u) := by
    unfold update_user
    simp [hdata, hconf, hexists, log_event_users]
  constructor
  · unfold update_user
    simp [hdata, hconf, hexists]
  · intro u hu
    constructor
    · intro hid
      rw [husers]
      refine List.mem_map.mpr ⟨u, hu, ?_⟩
      simp [hid]
    · intro hid
      rw [husers]
      refine List.mem_map.mpr ⟨u, hu, ?_⟩
      simp [hid]

/-- Witness for C7: updating `sampleUser` writes the new name and email
and stamps `updated_at` with the clock value. -/
theorem C7_update_overwrites_fields_witness :
    (update_user Fault.ok Fault.ok sampleDB 1 updBody).status = 200 ∧
    ({ id := 1, name := some "John Updated",
       email := some "john.updated@example.com",
       created_at := 1, updated_at := 5 } : User) ∈
      (update_user Fault.ok Fault.ok sampleDB 1 updBody).db.users := by
  have h := C7_update_overwrites_fields Fault.ok sampleDB 1 updBody
    (by decide) (by decide) (by decide)
  exact ⟨h.1, (h.2 sampleUser (by decide)).1 (by decide)⟩

/-! ## Claim C8 -/

/-- C8 counterexample: the source tests the level filter with Python
truthiness (`if level:`), so a supplied empty-string level filter is
ignored and entries of other levels are returned, refuting the clause
that every returned entry's level equals the supplied filter. -/
theorem C8_empty_level_counterexample :
    (get_logs Fault.ok logsDB none (some "")).body =
      Body.logList [entryB, entryA] 2 ∧
    entryB ∈ (get_logs Fault.ok logsDB none (some "")).logRows ∧
    entryB.level ≠ "" := by
  decide

/-- C8 (amended): for every `GET /logs` request on a reachable store,
the body is a list with its `count` field equal to the number of entries,
the number of entries never exceeds the requested limit (default 100 when
absent), every entry's level equals the level filter when a non-empty one
is supplied, and the entries are ordered by `created_at` descending. -/
theorem C8_logs_limit_filter_order (db : DB) (limit : Option Nat)
    (level : Option String) :
    (get_logs Fault.ok db limit level).body =
      Body.logList ((get_logs Fault.ok db limit level).logRows)
        ((get_logs Fault.ok db limit level).logRows.length) ∧
    (get_logs Fault.ok db limit level).logRows.length ≤ limit.getD 100 ∧
    (∀ s e, level = some s → s ≠ "" →
      e ∈ (get_logs Fault.ok db limit level).logRows → e.level = s) ∧
    List.Pairwise (fun a b => b.created_at ≤ a.created_at)
      ((get_logs Fault.ok db limit level).logRows) := by
  have hrows : (get_logs Fault.ok db limit level).logRows =
      (match level with
        | some lv =>
            if lv == "" then
              (List.insertionSort logDesc db.logs).take (limit.getD 100)
            else
              (List.insertionSort logDesc
                (db.logs.filter (fun e => e.level == lv))).take
                (limit.getD 100)
        | none =>
            (List.insertionSort logDesc db.logs).take (limit.getD 100)) := by
    unfold get_logs HRes.logRows
    simp
  refine ⟨?_, ?_, ?_, ?_⟩
  · unfold get_logs HRes.logRows
    simp
  · rw [hrows]
    rcases level with _ | lv
    · exact List.length_take_le (limit.getD 100) _
    · by_cases hlv : lv == ""
      · simp only [hlv, if_true]
        exact List.length_take_le (limit.getD 100) _
      · simp only [hlv, if_false]
        exact List.length_take_le (limit.getD 100) _
  · intro s e hs hne hmem
    subst hs
    rw [hrows] at hmem
    have hne2 : (s == "") = false := by
      simpa using hne
    simp only [hne2, if_false] at hmem
    have h1 : e ∈ List.insertionSort logDesc
        (db.logs.filter (fun x => x.level == s)) :=
      List.mem_of_mem_take hmem
    have h2 : e ∈ db.logs.filter (fun x => x.level == s) :=
      (List.mem_insertionSort logDesc).mp h1
    have h3 := (List.mem_filter.mp h2).2
    simpa using h3
  · rw [hrows]
    rcases level with _ | lv
    · exact (List.sorted_insertionSort logDesc db.logs).sublist
        (List.take_sublist _ _)
    · by_cases hlv : lv == ""
      · simp only [hlv, if_true]
        exact (List.sorted_insertionSort logDesc db.logs).sublist
          (List.take_sublist _ _)
      · simp only [hlv, if_false]
        exact (List.sorted_insertionSort logDesc _).sublist
          (List.take_sublist _ _)

/-- Witness for C8 at a concrete store, limit 1 and level filter
"ERROR": one entry comes back and it carries the requested level. -/
theorem C8_logs_limit_filter_order_witness :
    (get_logs Fault.ok logsDB (some 1) (some "ERROR")).logRows.length ≤
      (some 1 : Option Nat).getD 100 ∧
    entryB ∈ (get_logs Fault.ok logsDB (some 1) (some "ERROR")).logRows ∧
    entryB.level = "ERROR" := by
  have h := C8_logs_limit_filter_order logsDB (some 1) (some "ERROR")
  exact ⟨h.2.1, by decide, h.2.2.1 "ERROR" entryB rfl (by decide) (by decide)⟩

/-! ## Claim C9 -/

/-- C9 counterexample: the home handler does access the store — it calls
`log_event`, which acquires a connection and appends one row to the
`logs` table, refuting the claim that `GET /` produces its response
without acquiring a connection or writing any log row. -/
theorem C9_home_store_access_counterexample :
    (home Fault.ok emptyDB).acquired = 1 ∧
    (home Fault.ok emptyDB).db.logs.length = 1 := by
  decide

/-- C9 (amended): the info handler performs no store access at all and
leaves the state unchanged; the home handler records exactly one audit
event via `log_event` and touches the store only through it: the users
table is always unchanged, on log success exactly one connection is
acquired and released and exactly one row is appended to `logs`, and on
log failure the state is unchanged. -/
theorem C9_info_pure_home_logs_once (flog : Fault) (db : DB) :
    info db = { status := 200, body := Body.infoPage, db := db,
                acquired := 0, released := 0, events := 0 } ∧
    (home flog db).events = 1 ∧
    (home flog db).db.users = db.users ∧
    (flog = Fault.ok →
      (home flog db).acquired = 1 ∧ (home flog db).released = 1 ∧
      (home flog db).db.logs =
        { id := db.nextLogId, level := "INFO",
          message := "Home endpoint accessed", instance_id := INSTANCE_ID,
          created_at := db.now } :: db.logs) ∧
    (flog ≠ Fault.ok → (home flog db).db = db) := by
  refine ⟨rfl, rfl, ?_, ?_, ?_⟩
  · unfold home
    exact log_event_users flog db ("INFO") ("Home endpoint accessed")
  · intro h
    subst h
    unfold home log_event
    simp
  · intro h
    unfold home log_event
    rcases flog <;> simp_all

/-- Witness for C9 on the empty store: info returns it unchanged, a
successful home appends one log row, and a failing log call leaves the
store untouched. -/
theorem C9_info_pure_home_logs_once_witness :
    info emptyDB = { status := 200, body := Body.infoPage, db := emptyDB,
                     acquired := 0, released := 0, events := 0 } ∧
    (home Fault.ok emptyDB).db.logs.length = 1 ∧
    (home Fault.connectFail emptyDB).db = emptyDB := by
  have h1 := C9_info_pure_home_logs_once Fault.ok emptyDB
  have h2 := C9_info_pure_home_logs_once Fault.connectFail emptyDB
  refine ⟨h1.1, ?_, h2.2.2.2.2 (by decide)⟩
  rw [(h1.2.2.2.1 rfl).2.2]
  rfl

/-! ## Claim C5 -/

/-- C5 counterexample: the list-logs handler records no event on its
success path, the 409 conflict branch of create records no event, and
the 404 branch of get-user records no event, refuting the claim that
every handler except Info and Home records an event on every outcome. -/
theorem C5_missing_events_counterexample :
    (get_logs Fault.ok logsDB none none).status = 200 ∧
    (get_logs Fault.ok logsDB none none).events = 0 ∧
    (create_user Fault.ok Fault.ok sampleDB dupBody).status = 409 ∧
    (create_user Fault.ok Fault.ok sampleDB dupBody).events = 0 ∧
    (get_user Fault.ok Fault.ok emptyDB 1).status = 404 ∧
    (get_user Fault.ok Fault.ok emptyDB 1).events = 0 := by
  decide

/-- C5 (amended): event accounting of the handlers.  List users, health
and home record exactly one event on every path; info and list logs
never record one.  Create, get, update and delete record exactly one
event on their success paths and on their connection / generic statement
failure paths, and record none on the validation (400), not-found (404)
and conflict (409) branches. -/
theorem C5_event_accounting (f flog : Fault) (db : DB) (uid : Nat)
    (data : ParsedJson) (limit : Option Nat) (level : Option String) :
    (get_users f flog db).events = 1 ∧
    (health f flog db).events = 1 ∧
    (home flog db).events = 1 ∧
    (info db).events = 0 ∧
    (get_logs f db limit level).events = 0 ∧
    (data.falsy = true → (create_user f flog db data).events = 0) ∧
    (data.falsy = false → (pyFalsy data.name || pyFalsy data.email) = true →
      (create_user f flog db data).events = 0) ∧
    (data.falsy = false → (pyFalsy data.name || pyFalsy data.email) = false →
      f = Fault.ok → emailExists db data.email = true →
      (create_user f flog db data).events = 0) ∧
    (data.falsy = false → (pyFalsy data.name || pyFalsy data.email) = false →
      emailExists db data.email = false →
      (create_user f flog db data).events = 1) ∧
    (f = Fault.ok → find_user db uid = none →
      (get_user f flog db uid).events = 0) ∧
    (f = Fault.ok → ∀ u, find_user db uid = some u →
      (get_user f flog db uid).events = 1) ∧
    (f = Fault.connectFail ∨ f = Fault.execFail →
      (get_user f flog db uid).events = 1) ∧
    (data.falsy = false → f = Fault.ok →
      updateConflict db uid data.email = true →
      (update_user f flog db uid data).events = 0) ∧
    (data.falsy = false → f = Fault.ok →
      db.users.any (fun u => u.id == uid) = false →
      (update_user f flog db uid data).events = 0) ∧
    (data.falsy = false → f = Fault.ok →
      db.users.any (fun u => u.id == uid) = true →
      updateConflict db uid data.email = false →
      (update_user f flog db uid data).events = 1) ∧
    (data.falsy = false → f = Fault.connectFail ∨ f = Fault.execFail →
      (update_user f flog db uid data).events = 1) ∧
    (f = Fault.ok → db.users.any (fun u => u.id == uid) = false →
      (delete_user f flog db uid).events = 0) ∧
    (f = Fault.ok → db.users.any (fun u => u.id == uid) = true →
      (delete_user f flog db uid).events = 1) ∧
    (f = Fault.connectFail ∨ f = Fault.execFail →
      (delete_user f flog db uid).events = 1) := by
  refine ⟨?_, ?_, ?_, ?_, ?_, ?_, ?_, ?_, ?_, ?_, ?_, ?_, ?_, ?_, ?_, ?_,
    ?_, ?_, ?_⟩
  · unfold get_users
    rcases f <;> simp
  · unfold health
    rcases f <;> simp
  · rfl
  · rfl
  · unfold get_logs
    rcases f <;> simp
  · intro h
    unfold create_user
    simp [h]
  · intro h1 h2
    unfold create_user
    simp [h1, h2]
  · intro h1 h2 hf h3
    subst hf
    unfold create_user
    simp [h1, h2, h3]
  · intro h1 h2 h3
    unfold create_user
    rcases f <;> simp [h1, h2, h3]
  · intro hf hfind
    subst hf
    unfold get_user
    simp [hfind]
  · intro hf u hu
    subst hf
    unfold get_user
    simp [hu]
  · intro hf
    unfold get_user
    rcases hf with h | h <;> subst h <;> simp
  · intro h1 hf h2
    subst hf
    unfold update_user
    simp [h1, h2]
  · intro h1 hf h2
    subst hf
    have hconf : updateConflict db uid data.email = false := by
      unfold updateConflict
      rw [h2]
      simp
    unfold update_user
    simp [h1, h2, hconf]
  · intro h1 hf h2 h3
    subst hf
    unfold update_user
    simp [h1, h2, h3]
  · intro h1 hf
    unfold update_user
    rcases hf with h | h <;> subst h <;> simp [h1]
  · intro hf h
    subst hf
    unfold delete_user
    simp [h]
  · intro hf h
    subst hf
    unfold delete_user
    simp [h]
  · intro hf
    unfold delete_user
    rcases hf with h | h <;> subst h <;> simp

/-- Witness for C5 on concrete stores: list users logs once, list logs
never logs, a successful update logs once, a successful get logs once. -/
theorem C5_event_accounting_witness :
    (get_users Fault.ok Fault.ok sampleDB).events = 1 ∧
    (get_logs Fault.ok sampleDB none none).events = 0 ∧
    (update_user Fault.ok Fault.ok sampleDB 1 updBody).events = 1 ∧
    (get_user Fault.ok Fault.ok sampleDB 1).events = 1 := by
  obtain ⟨g1, g2, g3, g4, g5, c1, c2, c3, c4, r1, r2, r3, w1, w2, w3, w4,
    d1, d2, d3⟩ :=
    C5_event_accounting Fault.ok Fault.ok sampleDB 1 updBody none none
  exact ⟨g1, g5, w3 (by decide) rfl (by decide) (by decide),
    r2 rfl sampleUser (by decide)⟩
